import Mathlib

/-!
Verification of the lab-client session/auth/request layer.

Shallow embedding of `src/clients/base_client.py` (`LabDeviceClient`) and
`src/clients/auth_manager.py` (`LabAuthManager`).  JSON values are modelled by
an inductive `Json`, Python exceptions by `PyError`, HTTP responses by a
`Response` record (status code, parsed JSON body, raw text), and the network
by explicit lists of scripted responses.  Mutable object state (the cached
session and the token-store file) is passed and returned explicitly.
-/

set_option autoImplicit false

namespace LabClient

/-- JSON values as delivered by `resp.json()`.  Numbers are rationals so that
both integers and decimal fractions (e.g. `0.5`) are representable. -/
inductive Json where
  | null
  | bool (b : Bool)
  | num (q : ℚ)
  | str (s : String)
  | arr (elems : List Json)
  | obj (fields : List (String × Json))

/-- First-match lookup in the field list of a JSON object (Python `dict` access;
server-produced objects have unique keys). -/
def lookupField : List (String × Json) → String → Option Json
  | [], _ => none
  | (k, v) :: rest, key => if k = key then some v else lookupField rest key

/-- Python `payload.get(key)` on a parsed JSON value: field lookup on objects,
`None` (here `Option.none`) on anything else — which also covers the
`isinstance(payload, dict)` guards in the source. -/
def Json.get? : Json → String → Option Json
  | .obj fields, k => lookupField fields k
  | _, _ => none

/-- Python truthiness of a JSON value (`None`, `False`, `0`, `""`, `[]`, and
an empty object are falsy). -/
def Json.isFalsy : Json → Bool
  | .null => true
  | .bool b => !b
  | .num q => decide (q = 0)
  | .str s => s.isEmpty
  | .arr xs => xs.isEmpty
  | .obj fs => fs.isEmpty

/-- Rendering of a rational the way Python `str` renders the corresponding
number: integers without a fractional part.  Non-integral rationals are
rendered as `num/den`; no claim depends on that case. -/
def ratStr (q : ℚ) : String :=
  if q.den = 1 then toString q.num else toString q.num ++ "/" ++ toString q.den

mutual

/-- Python `str()` of a JSON value, as used by f-string interpolation and by
`str(...)` calls in the source (`None`/`True`/`False` for the scalar
constants, the text itself for strings). -/
def pyStr : Json → String
  | .null => "None"
  | .bool true => "True"
  | .bool false => "False"
  | .num q => ratStr q
  | .str s => s
  | .arr xs => "[" ++ pyStrList xs ++ "]"
  | .obj fs => "\x7b" ++ pyStrFields fs ++ "\x7d"

/-- Comma-separated rendering of the elements of a JSON array. -/
def pyStrList : List Json → String
  | [] => ""
  | [x] => pyStr x
  | x :: y :: xs => pyStr x ++ ", " ++ pyStrList (y :: xs)

/-- Comma-separated rendering of the fields of a JSON object. -/
def pyStrFields : List (String × Json) → String
  | [] => ""
  | [(k, v)] => k ++ ": " ++ pyStr v
  | (k, v) :: y :: xs => k ++ ": " ++ pyStr v ++ ", " ++ pyStrFields (y :: xs)

end

/-- Python `int(...)` applied to a JSON number: truncation toward zero.
Non-numeric inputs (where Python would raise or, for numeric strings, parse)
are mapped to `none`; no claim exercises them. -/
def pyInt : Json → Option Int
  | .num q => some (q.num.tdiv (q.den : Int))
  | _ => none

/-- The Python exceptions raised by the two source files. -/
inductive PyError where
  | runtimeError (msg : String)
  | valueError (msg : String)
  | keyError (msg : String)
  | connectionError (msg : String)
  | authError (msg : String)
  | authHttpError (status : Nat) (detail : String)

/-- An HTTP response as seen through `requests`: status code, the result of
`resp.json()` (`none` when the body is not valid JSON), and the raw body
text `resp.text`. -/
structure Response where
  status : Nat
  body : Option Json
  text : String

/-- Inner `try` block of the error branch of `LabDeviceClient._json_or_raise`
(base_client.py lines 101−106): parse the body and raise
`RuntimeError("Server error: <detail>")` when a `detail` or `error` field is
present.  The result is the exception this block raises, if any. -/
def fastapiDetailRaise (resp : Response) : Except PyError Unit :=
  match resp.body with
  | none => .error (.valueError "No JSON object could be decoded")
  | some payload =>
    match payload.get? "detail" with
    | some d => .error (.runtimeError ("Server error: " ++ pyStr d))
    | none =>
      match payload.get? "error" with
      | some d => .error (.runtimeError ("Server error: " ++ pyStr d))
      | none => .ok ()

/-- `LabDeviceClient._json_or_raise` (base_client.py lines 92−109).
`raise_for_status` raises `HTTPError` exactly when the status is ≥ 400; in
that branch the inner `try` of the source runs `fastapiDetailRaise`, but its
`except Exception: pass` clause catches every exception raised inside the
`try` — including the two `raise RuntimeError("Server error: ...")`
statements themselves — so both arms below fall through to the final
`raise RuntimeError("HTTP <status>: <text>")`.  On success the parsed body is
returned; a non-JSON success body raises `ValueError` from `resp.json()`. -/
def jsonOrRaise (resp : Response) : Except PyError Json :=
  if 400 ≤ resp.status then
    match fastapiDetailRaise resp with
    | .ok _ => .error (.runtimeError ("HTTP " ++ toString resp.status ++ ": " ++ resp.text))
    | .error _ => .error (.runtimeError ("HTTP " ++ toString resp.status ++ ": " ++ resp.text))
  else
    match resp.body with
    | some j => .ok j
    | none => .error (.valueError "No JSON object could be decoded")

/-- Result of `LabDeviceClient._perform_request`: the response returned to the
caller, the headers handed to `requests.request` on each attempt (in order),
the number of `reset_session()` calls made (the source's `attempts` counter),
and the auth manager's state afterwards. -/
structure PerformOutcome (σ H : Type) where
  response : Response
  headersSent : List H
  resetCalls : Nat
  authState : σ

/-- The `while True` loop of `LabDeviceClient._perform_request`
(base_client.py lines 180−201), with the network replaced by a scripted list
of responses consumed one per HTTP attempt.  `headersOf` is `self._headers()`
(it may advance the auth state, e.g. by logging in) and `reset` is
`self._auth.reset_session()`; `hasAuth` is the truthiness of `self._auth`.
`none` means the script ran out while the loop still wanted a response. -/
def performRequestLoop {σ H : Type} (hasAuth : Bool) (headersOf : σ → H × σ)
    (reset : σ → σ) : List Response → Nat → σ → List H → Option (PerformOutcome σ H)
  | [], _, _, _ => none
  | r :: rest, attempts, st, sent =>
    let hs := headersOf st
    if r.status = 401 ∧ hasAuth = true ∧ attempts = 0 then
      performRequestLoop hasAuth headersOf reset rest (attempts + 1) (reset hs.2)
        (sent ++ [hs.1])
    else some ⟨r, sent ++ [hs.1], attempts, hs.2⟩

/-- `LabDeviceClient._perform_request` (base_client.py lines 172−201),
starting the loop with `attempts = 0` and no headers sent yet. -/
def performRequest {σ H : Type} (hasAuth : Bool) (headersOf : σ → H × σ)
    (reset : σ → σ) (responses : List Response) (s0 : σ) :
    Option (PerformOutcome σ H) :=
  performRequestLoop hasAuth headersOf reset responses 0 s0 []

/-- Dtype of a numpy array.  `object` is the dtype of arrays built with
`dtype=object`; `nonObject` stands for every other dtype. -/
inductive NpDtype where
  | object
  | nonObject
deriving DecidableEq

/-- Modelled numpy semantics: the dtype of `np.array(xs, dtype=object)`.
Forcing `dtype=object` always yields an array whose dtype is `object`,
whatever the elements are. -/
def npArrayObjectDtype (_xs : List Json) : NpDtype := .object

/-- Values returned by the device-client primitives: either a plain JSON
value handed back unchanged, or a numpy array built from a JSON list
(`np.array(list)` in `_request`, or the dead `dtype=object` conversion in
`call`). -/
inductive PyValue where
  | json (j : Json)
  | ndarray (elems : List Json)

/-- `LabDeviceClient._request` (base_client.py lines 117−130), the shared
body of `get_property`/`set_property`.  The pair's second component counts
the HTTP attempts actually issued (the length of the headers log); the method
precondition check happens before any request, so it reports 0 attempts.
URL construction from the endpoint name is not modelled — the scripted
response list plays the role of the addressed server. -/
def deviceRequest {σ H : Type} (hasAuth : Bool) (headersOf : σ → H × σ)
    (reset : σ → σ) (responses : List Response) (s0 : σ)
    (method : String) (_value : Json) : Except PyError PyValue × Nat :=
  if ¬ (method = "GET" ∨ method = "POST") then
    (.error (.valueError "Method must be GET or POST"), 0)
  else if method = "GET" then
    match performRequest hasAuth headersOf reset responses s0 with
    | none => (.error (.connectionError "script exhausted"), 0)
    | some out =>
      let n := out.headersSent.length
      match jsonOrRaise out.response with
      | .error e => (.error e, n)
      | .ok data =>
        match (data.get? "value").getD Json.null with
        | .arr xs => (.ok (.ndarray xs), n)
        | v => (.ok (.json v), n)
  else
    match performRequest hasAuth headersOf reset responses s0 with
    | none => (.error (.connectionError "script exhausted"), 0)
    | some out =>
      let n := out.headersSent.length
      match jsonOrRaise out.response with
      | .error e => (.error e, n)
      | .ok data => (.ok (.json data), n)

/-- `LabDeviceClient.get_property` (base_client.py lines 132−133):
`self._request(name, "GET")`. -/
def getProperty {σ H : Type} (hasAuth : Bool) (headersOf : σ → H × σ)
    (reset : σ → σ) (responses : List Response) (s0 : σ) :
    Except PyError PyValue × Nat :=
  deviceRequest hasAuth headersOf reset responses s0 "GET" Json.null

/-- `LabDeviceClient.call` (base_client.py lines 152−170).  After
`_json_or_raise`, a body carrying `detail` without `result` raises
`RuntimeError(str(detail))`; a list-valued `result` enters the
`np.array(result, dtype=object)` branch, which only returns the array when
its dtype differs from `object`. -/
def callMethod {σ H : Type} (hasAuth : Bool) (headersOf : σ → H × σ)
    (reset : σ → σ) (responses : List Response) (s0 : σ)
    (_kwargs : Json) : Except PyError PyValue × Nat :=
  match performRequest hasAuth headersOf reset responses s0 with
  | none => (.error (.connectionError "script exhausted"), 0)
  | some out =>
    let n := out.headersSent.length
    match jsonOrRaise out.response with
    | .error e => (.error e, n)
    | .ok body =>
      if (body.get? "detail").isSome && !(body.get? "result").isSome then
        (.error (.runtimeError (pyStr ((body.get? "detail").getD Json.null))), n)
      else
        match (body.get? "result").getD Json.null with
        | .arr xs =>
          if npArrayObjectDtype xs ≠ NpDtype.object then (.ok (.ndarray xs), n)
          else (.ok (.json (.arr xs)), n)
        | v => (.ok (.json v), n)

/-- A normalized session as produced by `LabAuthManager._normalize_session`:
the `user` object as received, the issue timestamp, the two tokens (kept as
the raw JSON values the provider sent), and absolute expiry timestamps. -/
structure Session where
  user : Json
  issued_at : Int
  access_token : Json
  access_token_expires_at : Int
  refresh_token : Json
  refresh_token_expires_at : Int

/-- `LabAuthManager._expired` (auth_manager.py lines 217−221): a missing or
falsy timestamp is expired; otherwise the timestamp is compared against
`time.time() + skew`.  All call sites use the default `skew = 30`. -/
def expired (timestamp : Option Int) (now : Int) (skew : Int) : Bool :=
  match timestamp with
  | none => true
  | some t => if t = 0 then true else decide (t ≤ now + skew)

/-- The `user` component of `LabAuthManager._normalize_session`:
`raw.get("user") or ` an empty object (Python `or` substitutes the default
for any falsy value, not only for a missing key). -/
def sessionUser (raw : Json) : Json :=
  match raw.get? "user" with
  | none => Json.obj []
  | some u => if u.isFalsy then Json.obj [] else u

/-- `LabAuthManager._normalize_session` (auth_manager.py lines 223−234):
convert a raw provider payload into absolute expiries
`issued_at + expires_in`.  `issued_at` defaults to the current time when the
key is missing.  `none` models the `KeyError`/`TypeError` Python raises when
a required field is missing or non-numeric. -/
def normalizeSession (raw : Json) (now : Int) : Option Session :=
  let issued : Option Int :=
    match raw.get? "issued_at" with
    | none => some now
    | some j => pyInt j
  match issued, raw.get? "access_token", raw.get? "access_token_expires_in",
      raw.get? "refresh_token", raw.get? "refresh_token_expires_in" with
  | some i, some tok, some ein, some rtok, some rin =>
    match pyInt ein, pyInt rin with
    | some e, some re =>
      some { user := sessionUser raw, issued_at := i, access_token := tok,
             access_token_expires_at := i + e, refresh_token := rtok,
             refresh_token_expires_at := i + re }
    | _, _ => none
  | _, _, _, _, _ => none

/-- `LabAuthManager._extract_detail` (auth_manager.py lines 202−212): first
of the `detail`/`error`/`message` fields of a JSON-object body, rendered with
`str`; the raw response text otherwise. -/
def extractDetail (resp : Response) : String :=
  match resp.body with
  | none => resp.text
  | some data =>
    match data.get? "detail" with
    | some v => pyStr v
    | none =>
      match data.get? "error" with
      | some v => pyStr v
      | none =>
        match data.get? "message" with
        | some v => pyStr v
        | none => resp.text

/-- `LabAuthManager._request` (auth_manager.py lines 188−200) applied to the
response the wire delivered: status ≥ 400 becomes `AuthHttpError(status,
extract_detail)`, an unparsable success body becomes `AuthError`, otherwise
the parsed JSON is returned.  (Transport failures, which the source wraps in
`AuthError`, are outside the scripted-response model.) -/
def authRequest (resp : Response) (url : String) : Except PyError Json :=
  if 400 ≤ resp.status then
    .error (.authHttpError resp.status (extractDetail resp))
  else
    match resp.body with
    | some j => .ok j
    | none => .error (.authError ("Invalid JSON response from " ++ url))

/-- `LabAuthManager._refresh` (auth_manager.py lines 98−104):
POST `/auth/token`, then normalize; a payload missing the required token
fields raises (`KeyError` inside `_normalize_session`). -/
def refresh (base : String) (refreshResp : Response) (now : Int) :
    Except PyError Session :=
  match authRequest refreshResp (base ++ "/auth/token") with
  | .error e => .error e
  | .ok data =>
    match normalizeSession data now with
    | some s => .ok s
    | none => .error (.keyError "session payload missing required fields")

/-- New polling interval after a `pending` response
(`interval = int(result.get("interval", interval))` in `_interactive_login`):
a numeric server-supplied value replaces the current one.  A present but
non-numeric value, where Python would raise from `int(...)`, keeps the
current interval; no claim exercises that case. -/
def nextInterval (r : Json) (interval : Int) : Int :=
  match r.get? "interval" with
  | none => interval
  | some j => (pyInt j).getD interval

/-- The `while True` polling loop of `LabAuthManager._interactive_login`
(auth_manager.py lines 129−140), over the scripted list of parsed poll
bodies.  `none` means the script ran out while the loop was still polling
(the loop has not terminated).  A `pending` status updates the interval and
continues; `ok` returns the normalized session; anything else raises
`AuthError` with the server-provided `detail`, falling back to
`"Device flow failed"`. -/
def pollLoop (now : Int) : Int → List Json → Option (Except PyError Session)
  | _, [] => none
  | interval, r :: rest =>
    match r.get? "status" with
    | some (.str flag) =>
      if flag = "pending" then
        pollLoop now (nextInterval r interval) rest
      else if flag = "ok" then
        some (match normalizeSession r now with
          | some s => .ok s
          | none => .error (.keyError "session payload missing required fields"))
      else
        some (.error (.authError (pyStr ((r.get? "detail").getD (.str "Device flow failed")))))
    | _ =>
      some (.error (.authError (pyStr ((r.get? "detail").getD (.str "Device flow failed")))))

/-- The on-disk token store: the JSON document mapping server origin to
session, read by `_read_file` and written by `_write_file`. -/
def TokenStore : Type := String → Option Session

/-- `LabAuthManager._persist` (auth_manager.py lines 145−148): read the
file, set the entry for this manager's origin, write the file back. -/
def persistStore (store : TokenStore) (base : String) (s : Session) : TokenStore :=
  fun o => if o = base then some s else store o

/-- `LabAuthManager._clear_session`, store part (auth_manager.py lines
158−163): remove this origin's entry.  The boolean records whether the file
was written — the source writes only when the entry was present. -/
def clearStore (store : TokenStore) (base : String) : TokenStore × Bool :=
  if (store base).isSome then
    (fun o => if o = base then none else store o, true)
  else (store, false)

/-- Mutable state of a `LabAuthManager`: the in-memory cached session
`self._session` and the contents of the token file. -/
structure AuthState where
  session : Option Session
  store : TokenStore

/-- `LabAuthManager._clear_session` (auth_manager.py lines 158−163): drop
the origin's entry from the file and null the in-memory cache. -/
def clearSession (st : AuthState) (base : String) : AuthState :=
  { session := none, store := (clearStore st.store base).1 }

/-- `LabAuthManager._load_session_from_disk` (auth_manager.py lines
150−156): look up this origin; a session whose refresh token is expired is
cleared and not returned.  The state after the call is returned alongside
(clearing mutates both the file and `self._session`). -/
def loadSessionFromDisk (st : AuthState) (base : String) (now : Int) :
    Option Session × AuthState :=
  match st.store base with
  | none => (none, st)
  | some s =>
    if expired (some s.refresh_token_expires_at) now 30 then
      (none, clearSession st base)
    else (some s, st)

/-- The environment `_ensure_session` interacts with: the current time, the
HTTP response the refresh endpoint would return, and the outcome of
`_interactive_login` (whose internal polling loop is `pollLoop`). -/
structure AuthEnv where
  now : Int
  refreshResp : Response
  loginResult : Except PyError Session

/-- Tail of `LabAuthManager._ensure_session` (auth_manager.py lines 88−96),
reached when no usable session survived: raise if interactive login is
disabled, otherwise run the device-code flow, persist and cache its
session. -/
def ensureTail (base : String) (interactive : Bool) (st : AuthState)
    (env : AuthEnv) : Except PyError Session × AuthState :=
  if !interactive then
    (.error (.authError ("Authentication required but interactive login is disabled. "
      ++ "Set interactive=True or pass a valid session.")), st)
  else
    match env.loginResult with
    | .error e => (.error e, st)
    | .ok newSession =>
      (.ok newSession,
       { session := some newSession,
         store := persistStore st.store base newSession })

/-- `LabAuthManager._ensure_session` (auth_manager.py lines 68−96).
`force_login` clears first; the cached session is used when present, else
the store is consulted; a session with a live access token is returned as
is; one with only a live refresh token is refreshed (`AuthHttpError`
400/401 clears the session and falls through to `ensureTail`, any other
error propagates with the state untouched); otherwise `ensureTail` runs. -/
def ensureSession (base : String) (interactive : Bool) (st0 : AuthState)
    (env : AuthEnv) (forceLogin : Bool) : Except PyError Session × AuthState :=
  let st1 := if forceLogin then clearSession st0 base else st0
  let loaded :=
    match st1.session with
    | some s => (some s, st1)
    | none => loadSessionFromDisk st1 base env.now
  match loaded with
  | (some s, st2) =>
    if !expired (some s.access_token_expires_at) env.now 30 then
      (.ok s, { st2 with session := some s })
    else if !expired (some s.refresh_token_expires_at) env.now 30 then
      match refresh base env.refreshResp env.now with
      | .ok refreshed =>
        (.ok refreshed,
         { session := some refreshed,
           store := persistStore st2.store base refreshed })
      | .error (.authHttpError code d) =>
        if code = 400 ∨ code = 401 then
          ensureTail base interactive (clearSession st2 base) env
        else (.error (.authHttpError code d), st2)
      | .error e => (.error e, st2)
    else ensureTail base interactive st2 env
  | (none, st2) => ensureTail base interactive st2 env

/-- `LabAuthManager.authorization_header` (auth_manager.py lines 50−52):
`"Bearer <access_token>"` for the session `_ensure_session` produced. -/
def authorizationHeader (base : String) (interactive : Bool) (st : AuthState)
    (env : AuthEnv) (forceRefresh : Bool) : Except PyError String × AuthState :=
  match ensureSession base interactive st env forceRefresh with
  | (.ok s, st2) => (.ok ("Bearer " ++ pyStr s.access_token), st2)
  | (.error e, st2) => (.error e, st2)

/-! ## Concrete fixtures used by the witnesses -/

/-- A concrete normalized session: issued at 1000, access token live until
1010, refresh token live until 999999. -/
def sampleSession : Session :=
  { user := Json.obj [("login", Json.str "alice")], issued_at := 1000,
    access_token := Json.str "acc-1", access_token_expires_at := 1010,
    refresh_token := Json.str "ref-1", refresh_token_expires_at := 999999 }

/-- A token store holding exactly one entry, for a foreign origin. -/
def sampleStore : TokenStore :=
  fun o => if o = "http://other:1" then some sampleSession else none

/-! ## Claims -/

/-- C1: with an AuthManager configured, a first-attempt 401 causes exactly one
`reset_session()` call and exactly one re-issue with headers rebuilt from the
post-reset auth state; the second response is returned to the caller as is
(in particular a second 401 — no further retries).  A request whose first
response is not 401 performs exactly one HTTP attempt and zero resets. -/
theorem perform_request_single_retry_on_401 {σ H : Type} (headersOf : σ → H × σ)
    (reset : σ → σ) (s0 : σ) (r1 r2 : Response) (rest : List Response) :
    (r1.status = 401 →
      performRequest true headersOf reset (r1 :: r2 :: rest) s0 =
        some ⟨r2, [(headersOf s0).1, (headersOf (reset (headersOf s0).2)).1], 1,
              (headersOf (reset (headersOf s0).2)).2⟩) ∧
    (r1.status ≠ 401 →
      performRequest true headersOf reset (r1 :: r2 :: rest) s0 =
        some ⟨r1, [(headersOf s0).1], 0, (headersOf s0).2⟩) := by
  constructor
  · intro h
    simp [performRequest, performRequestLoop, h]
  · intro h
    simp [performRequest, performRequestLoop, h]

/-- Witness for C1: a 401-then-401 script resets once and returns the second
401 with freshly built headers; a 200 script performs one attempt and never
resets.  The auth state is modelled by a counter, headers echo the state. -/
theorem perform_request_single_retry_on_401_witness :
    performRequest true (fun n => (n, n)) Nat.succ
        [⟨401, none, ""⟩, ⟨401, none, "x"⟩] (0 : Nat) =
      some ⟨⟨401, none, "x"⟩, [0, 1], 1, 1⟩ ∧
    performRequest true (fun n => (n, n)) Nat.succ
        [⟨200, some Json.null, ""⟩, ⟨401, none, "x"⟩] (0 : Nat) =
      some ⟨⟨200, some Json.null, ""⟩, [0], 0, 0⟩ :=
  ⟨(perform_request_single_retry_on_401 (fun n => (n, n)) Nat.succ 0
      ⟨401, none, ""⟩ ⟨401, none, "x"⟩ []).1 rfl,
   (perform_request_single_retry_on_401 (fun n => (n, n)) Nat.succ 0
      ⟨200, some Json.null, ""⟩ ⟨401, none, "x"⟩ []).2 (by decide)⟩

/-- C2: contrary to the claim, a ≥400 response whose JSON body carries a
`detail` field does NOT surface that message: the `raise RuntimeError("Server
error: ...")` sits inside the `try` block whose own `except Exception: pass`
catches it, so `_json_or_raise` always falls back to
`"HTTP <status>: <raw body>"`.  The second conjunct shows the inner block did
compute the detail-bearing exception that the source then swallows. -/
theorem json_or_raise_swallows_detail :
    jsonOrRaise ⟨500, some (Json.obj [("detail", Json.str "boom")]), "raw body"⟩ =
      .error (.runtimeError "HTTP 500: raw body") ∧
    fastapiDetailRaise ⟨500, some (Json.obj [("detail", Json.str "boom")]), "raw body"⟩ =
      .error (.runtimeError "Server error: boom") := by
  exact ⟨rfl, rfl⟩

/-- C9: `_persist` and `_clear_session` only touch this manager's own origin:
any other origin's store entry is unchanged, and `_clear_session` writes the
file exactly when an entry for this origin existed. -/
theorem store_frame_property (store : TokenStore) (base origin : String)
    (s : Session) (h : origin ≠ base) :
    persistStore store base s origin = store origin ∧
    (clearStore store base).1 origin = store origin ∧
    (clearStore store base).2 = (store base).isSome := by
  refine ⟨?_, ?_, ?_⟩
  · simp [persistStore, h]
  · unfold clearStore
    cases hb : (store base).isSome <;> simp [h]
  · unfold clearStore
    cases hb : (store base).isSome <;> simp [hb]

/-- Witness for C9: storing or clearing under `http://lab:5000` leaves the
entry for `http://other:1` alone. -/
theorem store_frame_property_witness :
    persistStore sampleStore "http://lab:5000" sampleSession "http://other:1" =
      sampleStore "http://other:1" ∧
    (clearStore sampleStore "http://lab:5000").1 "http://other:1" =
      sampleStore "http://other:1" ∧
    (clearStore sampleStore "http://lab:5000").2 =
      (sampleStore "http://lab:5000").isSome :=
  store_frame_property sampleStore "http://lab:5000" "http://other:1"
    sampleSession (by decide)

/-- C4: the expiry test behind `authorization_header` deems a token expired
exactly when its expiry timestamp is at most `now + 30`; consequently a
session expiring `now + 3600` is served from cache unchanged, while one
expiring within the skew window (here `now + 10`) triggers a refresh, whose
result is returned, cached and persisted. -/
theorem expired_skew_window :
    (∀ (t now : Int), 0 ≤ now → expired (some t) now 30 = decide (t ≤ now + 30)) ∧
    (∀ (base : String) (interactive : Bool) (store : TokenStore) (env : AuthEnv)
        (s : Session), 0 ≤ env.now → s.access_token_expires_at = env.now + 3600 →
      authorizationHeader base interactive ⟨some s, store⟩ env false =
        (.ok ("Bearer " ++ pyStr s.access_token), ⟨some s, store⟩)) ∧
    (∀ (base : String) (interactive : Bool) (store : TokenStore) (env : AuthEnv)
        (s s2 : Session), 0 ≤ env.now → s.access_token_expires_at = env.now + 10 →
      expired (some s.refresh_token_expires_at) env.now 30 = false →
      refresh base env.refreshResp env.now = .ok s2 →
      authorizationHeader base interactive ⟨some s, store⟩ env false =
        (.ok ("Bearer " ++ pyStr s2.access_token),
         ⟨some s2, persistStore store base s2⟩)) := by
  refine ⟨?_, ?_, ?_⟩
  · intro t now hnow
    unfold expired
    by_cases ht : t = 0
    · subst ht
      have h0 : (0 : Int) ≤ now + 30 := by omega
      simp [h0]
    · simp [ht]
  · intro base interactive store env s hnow hs
    have hexp : expired (some s.access_token_expires_at) env.now 30 = false := by
      unfold expired
      rw [hs]
      have h1 : ¬ (env.now + 3600 = 0) := by omega
      have h2 : ¬ (env.now + 3600 ≤ env.now + 30) := by omega
      simp [h1, h2]
    simp [authorizationHeader, ensureSession, hexp]
  · intro base interactive store env s s2 hnow hs href hrefresh
    have hexp : expired (some s.access_token_expires_at) env.now 30 = true := by
      unfold expired
      rw [hs]
      have h1 : ¬ (env.now + 10 = 0) := by omega
      have h2 : env.now + 10 ≤ env.now + 30 := by omega
      simp [h1, h2]
    simp [authorizationHeader, ensureSession, hexp, href, hrefresh]

/-- A raw refresh-endpoint payload fixture: issued at 1000, access token for
an hour, refresh token for two. -/
def rawRefreshPayload : Json :=
  Json.obj [("issued_at", Json.num 1000),
            ("access_token", Json.str "acc-2"),
            ("access_token_expires_in", Json.num 3600),
            ("refresh_token", Json.str "ref-2"),
            ("refresh_token_expires_in", Json.num 7200)]

/-- The session `rawRefreshPayload` normalizes to. -/
def refreshedSession : Session :=
  { user := Json.obj [], issued_at := 1000, access_token := Json.str "acc-2",
    access_token_expires_at := 4600, refresh_token := Json.str "ref-2",
    refresh_token_expires_at := 8200 }

/-- An environment whose refresh endpoint answers 200 with
`rawRefreshPayload`, at time 1000. -/
def sampleEnv : AuthEnv :=
  { now := 1000, refreshResp := ⟨200, some rawRefreshPayload, ""⟩,
    loginResult := .ok refreshedSession }

/-- A session whose access token expires at `sampleEnv.now + 3600`. -/
def freshSession : Session :=
  { sampleSession with access_token_expires_at := 4600 }

/-- Witness for C4: the general skew equation at `t = 1010`, `now = 1000`;
the `now + 3600` session served from cache; the `now + 10` session
(`sampleSession`) refreshed through `sampleEnv`. -/
theorem expired_skew_window_witness :
    expired (some 1010) 1000 30 = decide ((1010 : Int) ≤ 1000 + 30) ∧
    authorizationHeader "http://lab:5000" true ⟨some freshSession, sampleStore⟩
        sampleEnv false =
      (.ok ("Bearer " ++ pyStr freshSession.access_token),
       ⟨some freshSession, sampleStore⟩) ∧
    authorizationHeader "http://lab:5000" true ⟨some sampleSession, sampleStore⟩
        sampleEnv false =
      (.ok ("Bearer " ++ pyStr refreshedSession.access_token),
       ⟨some refreshedSession,
        persistStore sampleStore "http://lab:5000" refreshedSession⟩) :=
  ⟨expired_skew_window.1 1010 1000 (by decide),
   expired_skew_window.2.1 "http://lab:5000" true sampleStore sampleEnv
     freshSession (by decide) rfl,
   expired_skew_window.2.2 "http://lab:5000" true sampleStore sampleEnv
     sampleSession refreshedSession (by decide) rfl (by decide) rfl⟩

/-- C5: normalizing a raw provider payload carrying the four token fields
produces absolute expiries `issued_at + expires_in` (with `issued_at`
defaulting to the time of receipt), and persisting the result then loading
it back for the same origin returns the very same session — provided its
refresh token has not expired at load time. -/
theorem normalize_persist_load_round_trip :
    (∀ (raw : Json) (now : Int) (tok ein rtok rin : Json) (e re : Int),
      raw.get? "issued_at" = none →
      raw.get? "access_token" = some tok →
      raw.get? "access_token_expires_in" = some ein → pyInt ein = some e →
      raw.get? "refresh_token" = some rtok →
      raw.get? "refresh_token_expires_in" = some rin → pyInt rin = some re →
      normalizeSession raw now =
        some ⟨sessionUser raw, now, tok, now + e, rtok, now + re⟩) ∧
    (∀ (store : TokenStore) (base : String) (raw : Json) (now loadNow : Int)
        (sess : Session),
      normalizeSession raw now = some sess →
      expired (some sess.refresh_token_expires_at) loadNow 30 = false →
      loadSessionFromDisk ⟨none, persistStore store base sess⟩ base loadNow =
        (some sess, ⟨none, persistStore store base sess⟩)) := by
  constructor
  · intro raw now tok ein rtok rin e re h0 h1 h2 h3 h4 h5 h6
    simp [normalizeSession, h0, h1, h2, h3, h4, h5, h6]
  · intro store base raw now loadNow sess hnorm hexp
    simp [loadSessionFromDisk, persistStore, hexp]

/-- A raw device-flow payload without `issued_at`. -/
def rawLoginPayload : Json :=
  Json.obj [("access_token", Json.str "acc-3"),
            ("access_token_expires_in", Json.num 3600),
            ("refresh_token", Json.str "ref-3"),
            ("refresh_token_expires_in", Json.num 7200)]

/-- Witness for C5: `rawLoginPayload` normalized at time 1000 has expiries
4600 and 8200, and survives a persist/load round trip at time 2000. -/
theorem normalize_persist_load_round_trip_witness :
    normalizeSession rawLoginPayload 1000 =
      some ⟨sessionUser rawLoginPayload, 1000, Json.str "acc-3", 1000 + 3600,
            Json.str "ref-3", 1000 + 7200⟩ ∧
    loadSessionFromDisk
        ⟨none, persistStore sampleStore "http://lab:5000" refreshedSession⟩
        "http://lab:5000" 2000 =
      (some refreshedSession,
       ⟨none, persistStore sampleStore "http://lab:5000" refreshedSession⟩) :=
  ⟨normalize_persist_load_round_trip.1 rawLoginPayload 1000 (Json.str "acc-3")
     (Json.num 3600) (Json.str "ref-3") (Json.num 7200) 3600 7200
     rfl rfl rfl rfl rfl rfl rfl,
   normalize_persist_load_round_trip.2 sampleStore "http://lab:5000"
     rawRefreshPayload 1000 2000 refreshedSession rfl (by decide)⟩

/-- Helper: clearing always removes this origin's own entry. -/
theorem clearStore_self (store : TokenStore) (base : String) :
    (clearStore store base).1 base = none := by
  unfold clearStore
  cases hb : (store base).isSome <;> simp_all

/-- C3: with a cached session whose access token is expired but whose refresh
token is live, a refresh answered 400 or 401 discards the session (cache and
store entry both cleared) and falls through to re-authentication
(`ensureTail`, the interactive device-code flow when enabled); any other
HTTP error status from the refresh endpoint propagates and the state is left
exactly as it was. -/
theorem ensure_session_refresh_error_paths (base : String) (interactive : Bool)
    (store : TokenStore) (s : Session) (env : AuthEnv)
    (hacc : expired (some s.access_token_expires_at) env.now 30 = true)
    (href : expired (some s.refresh_token_expires_at) env.now 30 = false) :
    ((env.refreshResp.status = 400 ∨ env.refreshResp.status = 401) →
      ensureSession base interactive ⟨some s, store⟩ env false =
          ensureTail base interactive (clearSession ⟨some s, store⟩ base) env ∧
        (clearSession ⟨some s, store⟩ base).session = none ∧
        (clearSession ⟨some s, store⟩ base).store base = none ∧
        (interactive = true → ∀ n, env.loginResult = .ok n →
          ensureSession base interactive ⟨some s, store⟩ env false =
            (.ok n, { session := some n,
                      store := persistStore (clearStore store base).1 base n }))) ∧
    (400 ≤ env.refreshResp.status → env.refreshResp.status ≠ 400 →
      env.refreshResp.status ≠ 401 →
      ensureSession base interactive ⟨some s, store⟩ env false =
        (.error (.authHttpError env.refreshResp.status (extractDetail env.refreshResp)),
         ⟨some s, store⟩)) := by
  constructor
  · intro h
    have h400 : 400 ≤ env.refreshResp.status := by
      rcases h with h | h <;> omega
    have hcase : (env.refreshResp.status = 400 ∨ env.refreshResp.status = 401) = True := by
      simp [h]
    refine ⟨?_, rfl, clearStore_self store base, ?_⟩
    · simp [ensureSession, refresh, authRequest, hacc, href, h400, hcase]
    · intro hint n hlogin
      simp [ensureSession, refresh, authRequest, hacc, href, h400, hcase,
        ensureTail, hint, hlogin, clearSession]
  · intro h400 hne400 hne401
    have hcase : (env.refreshResp.status = 400 ∨ env.refreshResp.status = 401) = False := by
      simp [hne400, hne401]
    simp [ensureSession, refresh, authRequest, hacc, href, h400, hcase]

/-- An environment whose refresh endpoint answers 401, at time 1000. -/
def refresh401Env : AuthEnv :=
  { now := 1000, refreshResp := ⟨401, some (Json.obj [("detail", Json.str "bad token")]), ""⟩,
    loginResult := .ok refreshedSession }

/-- An environment whose refresh endpoint answers 500, at time 1000. -/
def refresh500Env : AuthEnv :=
  { now := 1000, refreshResp := ⟨500, none, "oops"⟩,
    loginResult := .ok refreshedSession }

/-- Witness for C3: `sampleSession` (access token expired at time 1000,
refresh token live) refreshed against a 401 endpoint is discarded and the
interactive flow's session is returned and persisted; against a 500 endpoint
the `AuthHttpError` propagates and the state is untouched. -/
theorem ensure_session_refresh_error_paths_witness :
    (ensureSession "http://lab:5000" true ⟨some sampleSession, sampleStore⟩
          refresh401Env false =
        ensureTail "http://lab:5000" true
          (clearSession ⟨some sampleSession, sampleStore⟩ "http://lab:5000")
          refresh401Env ∧
      (clearSession ⟨some sampleSession, sampleStore⟩ "http://lab:5000").session = none ∧
      (clearSession ⟨some sampleSession, sampleStore⟩ "http://lab:5000").store
          "http://lab:5000" = none ∧
      (true = true → ∀ n, refresh401Env.loginResult = .ok n →
        ensureSession "http://lab:5000" true ⟨some sampleSession, sampleStore⟩
            refresh401Env false =
          (.ok n, { session := some n,
                    store := persistStore (clearStore sampleStore "http://lab:5000").1
                      "http://lab:5000" n }))) ∧
    ensureSession "http://lab:5000" true ⟨some sampleSession, sampleStore⟩
        refresh500Env false =
      (.error (.authHttpError refresh500Env.refreshResp.status
                 (extractDetail refresh500Env.refreshResp)),
       ⟨some sampleSession, sampleStore⟩) :=
  ⟨(ensure_session_refresh_error_paths "http://lab:5000" true sampleStore
      sampleSession refresh401Env (by decide) (by decide)).1 (Or.inr rfl),
   (ensure_session_refresh_error_paths "http://lab:5000" true sampleStore
      sampleSession refresh500Env (by decide) (by decide)).2
     (by decide) (by decide) (by decide)⟩

/-- C6: one step of the device-code polling loop.  A `pending` response never
terminates the loop and replaces the interval by the server-supplied one; the
loop terminates with the normalized session exactly at the first `ok`
response; any other status terminates it by raising `AuthError` carrying the
server-provided `detail`, with `"Device flow failed"` as fallback. -/
theorem poll_loop_status_behaviour (now interval : Int) (r : Json)
    (rest : List Json) :
    (r.get? "status" = some (.str "pending") →
      pollLoop now interval (r :: rest) = pollLoop now (nextInterval r interval) rest) ∧
    (∀ s, r.get? "status" = some (.str "ok") → normalizeSession r now = some s →
      pollLoop now interval (r :: rest) = some (.ok s)) ∧
    (∀ flag, r.get? "status" = some (.str flag) → flag ≠ "pending" → flag ≠ "ok" →
      pollLoop now interval (r :: rest) =
        some (.error (.authError
          (pyStr ((r.get? "detail").getD (.str "Device flow failed")))))) := by
  refine ⟨?_, ?_, ?_⟩
  · intro h
    simp [pollLoop, h]
  · intro s h hnorm
    simp [pollLoop, h, hnorm]
  · intro flag h hpending hok
    simp [pollLoop, h, hpending, hok]

/-- An `ok` poll response carrying a full session payload. -/
def okPollPayload : Json :=
  Json.obj [("status", Json.str "ok"),
            ("issued_at", Json.num 1000),
            ("access_token", Json.str "acc-2"),
            ("access_token_expires_in", Json.num 3600),
            ("refresh_token", Json.str "ref-2"),
            ("refresh_token_expires_in", Json.num 7200)]

/-- Witness for C6: a `pending` response with interval 7 keeps polling at the
new interval; an `ok` response yields its normalized session; a `denied`
status raises with the server detail. -/
theorem poll_loop_status_behaviour_witness :
    pollLoop 1000 5 [Json.obj [("status", Json.str "pending"), ("interval", Json.num 7)]] =
      pollLoop 1000
        (nextInterval (Json.obj [("status", Json.str "pending"), ("interval", Json.num 7)]) 5) [] ∧
    pollLoop 1000 5 [okPollPayload] = some (.ok refreshedSession) ∧
    pollLoop 1000 5 [Json.obj [("status", Json.str "denied"), ("detail", Json.str "access denied")]] =
      some (.error (.authError
        (pyStr (((Json.obj [("status", Json.str "denied"), ("detail", Json.str "access denied")]).get?
          "detail").getD (.str "Device flow failed"))))) :=
  ⟨(poll_loop_status_behaviour 1000 5
      (Json.obj [("status", Json.str "pending"), ("interval", Json.num 7)]) []).1 rfl,
   (poll_loop_status_behaviour 1000 5 okPollPayload []).2.1 refreshedSession rfl rfl,
   (poll_loop_status_behaviour 1000 5
      (Json.obj [("status", Json.str "denied"), ("detail", Json.str "access denied")]) []).2.2
     "denied" rfl (by decide) (by decide)⟩

/-- C7: for a successful JSON reply to `call`, a body carrying `detail` and
no `result` field raises a server application error whose message is that
detail; a body whose `result` is explicitly `null`, or absent with no
`detail` to raise, makes `call` return `None` (here `Json.null`).  (When
`result` is absent *and* `detail` is present, the first rule wins — the
source raises before reading `result`.) -/
theorem call_detail_raises_and_null_result_ok {σ H : Type} (hasAuth : Bool)
    (headersOf : σ → H × σ) (reset : σ → σ) (s0 : σ) (body : Json)
    (txt : String) (rest : List Response) :
    (∀ d, body.get? "detail" = some d → body.get? "result" = none →
      callMethod hasAuth headersOf reset (⟨200, some body, txt⟩ :: rest) s0 Json.null =
        (.error (.runtimeError (pyStr d)), 1)) ∧
    ((body.get? "result" = some .null ∨
        (body.get? "result" = none ∧ body.get? "detail" = none)) →
      callMethod hasAuth headersOf reset (⟨200, some body, txt⟩ :: rest) s0 Json.null =
        (.ok (.json .null), 1)) := by
  constructor
  · intro d hd hr
    simp [callMethod, performRequest, performRequestLoop, jsonOrRaise, hd, hr]
  · rintro (hr | ⟨hr, hd⟩)
    · simp [callMethod, performRequest, performRequestLoop, jsonOrRaise, hr]
    · simp [callMethod, performRequest, performRequestLoop, jsonOrRaise, hr, hd]

/-- Witness for C7: the spec's own examples — a `detail`-only reply raises
`"GPIB timeout"`, a `null` `result` returns `None` after one HTTP attempt. -/
theorem call_detail_raises_and_null_result_ok_witness :
    callMethod true (fun (n : Nat) => (n, n)) Nat.succ
        [⟨200, some (Json.obj [("detail", Json.str "GPIB timeout")]), ""⟩] 0 Json.null =
      (.error (.runtimeError (pyStr (Json.str "GPIB timeout"))), 1) ∧
    callMethod true (fun (n : Nat) => (n, n)) Nat.succ
        [⟨200, some (Json.obj [("result", Json.null)]), ""⟩] 0 Json.null =
      (.ok (.json .null), 1) :=
  ⟨(call_detail_raises_and_null_result_ok true (fun n => (n, n)) Nat.succ 0
      (Json.obj [("detail", Json.str "GPIB timeout")]) "" []).1
     (Json.str "GPIB timeout") rfl rfl,
   (call_detail_raises_and_null_result_ok true (fun n => (n, n)) Nat.succ 0
      (Json.obj [("result", Json.null)]) "" []).2 (Or.inl rfl)⟩

/-- C8: `get_property` recognizes a JSON-array `value` as a vector-valued
property (a numpy array over the list) and returns a scalar `value`
unchanged; and a property access with a method other than GET or POST fails
the local precondition check with `ValueError` after zero HTTP attempts,
whatever the scripted network would have answered. -/
theorem get_property_vector_scalar_and_method_check {σ H : Type} (hasAuth : Bool)
    (headersOf : σ → H × σ) (reset : σ → σ) (s0 : σ) (body : Json)
    (txt : String) (rest : List Response) :
    (∀ xs, body.get? "value" = some (.arr xs) →
      getProperty hasAuth headersOf reset (⟨200, some body, txt⟩ :: rest) s0 =
        (.ok (.ndarray xs), 1)) ∧
    (∀ q, body.get? "value" = some (.num q) →
      getProperty hasAuth headersOf reset (⟨200, some body, txt⟩ :: rest) s0 =
        (.ok (.json (.num q)), 1)) ∧
    (∀ (method : String) (responses : List Response) (v : Json),
      method ≠ "GET" → method ≠ "POST" →
      deviceRequest hasAuth headersOf reset responses s0 method v =
        (.error (.valueError "Method must be GET or POST"), 0)) := by
  refine ⟨?_, ?_, ?_⟩
  · intro xs h
    simp [getProperty, deviceRequest, performRequest, performRequestLoop,
      jsonOrRaise, h]
  · intro q h
    simp [getProperty, deviceRequest, performRequest, performRequestLoop,
      jsonOrRaise, h]
  · intro method responses v hget hpost
    simp [deviceRequest, hget, hpost]

/-- Witness for C8: the spec's example device — `span` returning
`{"value": [1549.0, 1551.0]}` comes back as an array, `{"value": 0.5}` as
the scalar itself; a `"PUT"` property access raises the local `ValueError`
with zero HTTP attempts. -/
theorem get_property_vector_scalar_and_method_check_witness :
    getProperty true (fun (n : Nat) => (n, n)) Nat.succ
        [⟨200, some (Json.obj [("value", Json.arr [Json.num 1549, Json.num 1551])]), ""⟩] 0 =
      (.ok (.ndarray [Json.num 1549, Json.num 1551]), 1) ∧
    getProperty true (fun (n : Nat) => (n, n)) Nat.succ
        [⟨200, some (Json.obj [("value", Json.num (1/2))]), ""⟩] 0 =
      (.ok (.json (.num (1/2))), 1) ∧
    deviceRequest true (fun (n : Nat) => (n, n)) Nat.succ
        [⟨200, some Json.null, ""⟩] 0 "PUT" Json.null =
      (.error (.valueError "Method must be GET or POST"), 0) :=
  ⟨(get_property_vector_scalar_and_method_check true (fun n => (n, n)) Nat.succ 0
      (Json.obj [("value", Json.arr [Json.num 1549, Json.num 1551])]) "" []).1
     [Json.num 1549, Json.num 1551] rfl,
   (get_property_vector_scalar_and_method_check true (fun n => (n, n)) Nat.succ 0
      (Json.obj [("value", Json.num (1/2))]) "" []).2.1 (1/2) rfl,
   (get_property_vector_scalar_and_method_check true (fun n => (n, n)) Nat.succ 0
      Json.null "" []).2.2 "PUT" [⟨200, some Json.null, ""⟩] Json.null
     (by decide) (by decide)⟩

/-- C10: a list-valued `result` of `call` is returned as the list itself,
never as a converted numpy array: the conversion branch builds the array
with `dtype=object` and returns it only when its dtype differs from
`object`, which never holds (second conjunct), so the conversion is
unreachable. -/
theorem call_list_result_returned_unchanged {σ H : Type} (hasAuth : Bool)
    (headersOf : σ → H × σ) (reset : σ → σ) (s0 : σ) (body : Json)
    (txt : String) (rest : List Response) :
    (∀ xs, body.get? "result" = some (.arr xs) →
      callMethod hasAuth headersOf reset (⟨200, some body, txt⟩ :: rest) s0 Json.null =
        (.ok (.json (.arr xs)), 1)) ∧
    (∀ xs, npArrayObjectDtype xs = NpDtype.object) := by
  constructor
  · intro xs h
    simp [callMethod, performRequest, performRequestLoop, jsonOrRaise, h,
      npArrayObjectDtype]
  · intro xs
    rfl

/-- Witness for C10: `{"result": [1, 2]}` comes back as the JSON list
`[1, 2]`, not as an array value. -/
theorem call_list_result_returned_unchanged_witness :
    callMethod true (fun (n : Nat) => (n, n)) Nat.succ
        [⟨200, some (Json.obj [("result", Json.arr [Json.num 1, Json.num 2])]), ""⟩] 0 Json.null =
      (.ok (.json (.arr [Json.num 1, Json.num 2])), 1) :=
  (call_list_result_returned_unchanged true (fun n => (n, n)) Nat.succ 0
     (Json.obj [("result", Json.arr [Json.num 1, Json.num 2])]) "" []).1
    [Json.num 1, Json.num 2] rfl

end LabClient
